import Mathlib

/-!
# Verification of the Correpy-Plus brokerage-note extraction pipeline

Shallow embedding of the parsing logic of the repository (files
`main.py`, `extrator_notas.py`, `advanced_parser.py`, `pdf_analyzer.py`,
`extrair_futuros_direto.py`) and proofs about the claims C1-C10.

Monetary amounts (Python `float` values obtained from decimal strings) are
modelled as rationals (`ℚ`).  Python strings are modelled as Lean `String`
over their character lists; case mapping is modelled for ASCII letters,
which covers every keyword constant in the source.
-/

namespace Correpy

/-! ## Character and string helpers (Python semantics) -/

/-- Python `\s` whitespace class (ASCII part). -/
def isSpacePy (c : Char) : Bool :=
  c = ' ' || c = '\t' || c = '\n' || c = '\r' || c.toNat = 11 || c.toNat = 12

/-- Substring test, Python's `pat in s` on strings. -/
def containsSub (s pat : String) : Bool :=
  s.toList.tails.any (fun t => pat.toList.isPrefixOf t)

/-- ASCII lowercase of a string, Python `str.lower()` for ASCII data. -/
def lowerStr (s : String) : String := ⟨s.toList.map Char.toLower⟩

/-- ASCII uppercase of a string, Python `str.upper()` for ASCII data. -/
def upperStr (s : String) : String := ⟨s.toList.map Char.toUpper⟩

/-- Drop leading and trailing whitespace from a character list. -/
def trimPy (cs : List Char) : List Char :=
  ((cs.dropWhile isSpacePy).reverse.dropWhile isSpacePy).reverse

/-- Python `str.strip()`: drop leading and trailing whitespace. -/
def stripStr (s : String) : String := ⟨trimPy s.toList⟩

/-- One step of collapsing whitespace runs; `prevWs` records whether the
previous character belonged to a run already replaced by `' '`. -/
def collapseWsAux : Bool → List Char → List Char
  | _, [] => []
  | prevWs, c :: rest =>
    if isSpacePy c then
      if prevWs then collapseWsAux true rest
      else ' ' :: collapseWsAux true rest
    else c :: collapseWsAux false rest

/-- Python `re.sub(r'\s+', ' ', s)`: each maximal whitespace run becomes one space. -/
def collapseWs (s : String) : String := ⟨collapseWsAux false s.toList⟩

/-- Python `sep.split` for a one-character separator (as in `str.split('-')`). -/
def splitOnChar (sep : Char) (cs : List Char) : List (List Char) :=
  match cs with
  | [] => [[]]
  | c :: rest =>
    let r := splitOnChar sep rest
    if c = sep then [] :: r
    else match r with
      | [] => [[c]]
      | h :: t => (c :: h) :: t

/-- Value of a list of decimal digits. -/
def natOfDigits (cs : List Char) : ℕ :=
  cs.foldl (fun a c => 10 * a + (c.toNat - 48)) 0

/-- Split a character list at its unique `'.'`; `none` if it has two or more. -/
def splitDot : List Char → Option (List Char × List Char)
  | [] => some ([], [])
  | c :: r =>
    if c = '.' then (if r.contains '.' then none else some ([], r))
    else (splitDot r).map (fun p => (c :: p.1, p.2))

/-- Digit-string part of `float`: at most one decimal point, at least one
digit, value `(intpart ++ fracpart) / 10 ^ |fracpart|`, negated under `neg`. -/
def pyFloatCore (neg : Bool) (resto : List Char) : Option ℚ :=
  (splitDot resto).bind (fun p =>
    if p.1.all Char.isDigit && p.2.all Char.isDigit && !(p.1.isEmpty && p.2.isEmpty) then
      some (if neg then
          -(mkRat (natOfDigits p.1 * 10 ^ p.2.length + natOfDigits p.2) (10 ^ p.2.length))
        else mkRat (natOfDigits p.1 * 10 ^ p.2.length + natOfDigits p.2) (10 ^ p.2.length))
    else none)

/-- Python `float(s)` on plain decimal literals, as a rational.
Surrounding whitespace and a single leading sign are accepted, then a digit
string with at most one decimal point.  Exotic float syntax (exponents,
`inf`, `nan`, underscores) is unreachable from the call sites modelled here
and is treated as unparseable. -/
def pyFloat? (cs0 : List Char) : Option ℚ :=
  pyFloatCore ((trimPy cs0).head? = some '-')
    (if (trimPy cs0).head? = some '-' ∨ (trimPy cs0).head? = some '+'
     then (trimPy cs0).tail else trimPy cs0)

/-! ## The monetary parsers

Four `float`-conversion helpers exist in the source; the two canonical ones
keep the minus sign and decide the decimal separator from which separators
are present, the two in `main.py` / `extrair_futuros_direto.py` drop the
minus sign and remove every period. -/

/-- Separator handling of `extrator_notas.parse_valor`: when a comma is
present, drop every period and turn the comma into the decimal point. -/
def transformNotas (limpo : List Char) : List Char :=
  if limpo.contains ',' then
    (limpo.filter (fun c => c ≠ '.')).map (fun c => if c = ',' then '.' else c)
  else limpo

/-- `extrator_notas.parse_valor` (extrator_notas.py lines 967-983). -/
def parse_valor (s : String) : ℚ :=
  if s = "" then 0
  else (pyFloat? (transformNotas
    (s.toList.filter (fun c => c.isDigit || c = ',' || c = '.' || c = '-')))).getD 0

/-- Separator handling of `_converter_para_float`: its three-way case split
(both separators / only comma / only period). -/
def transformAdv (v : List Char) : List Char :=
  if v.contains ',' && v.contains '.' then
    (v.filter (fun c => c ≠ '.')).map (fun c => if c = ',' then '.' else c)
  else if v.contains ',' then
    v.map (fun c => if c = ',' then '.' else c)
  else v

/-- `NotaCobretagemParser._converter_para_float` (advanced_parser.py lines 520-540). -/
def converter_para_float (s : String) : ℚ :=
  if s = "" then 0
  else (pyFloat? (transformAdv
    (s.toList.filter (fun c => c.isDigit || c = ',' || c = '.' || c = '-')))).getD 0

/-- `main.parse_valor` (main.py lines 29-47): drops `-`, removes all periods. -/
def parse_valor_main (s : String) : ℚ :=
  if s = "" then 0
  else if (s.toList.filter (fun c => c.isDigit || c = '.' || c = ',')).isEmpty then 0
  else (pyFloat? (((s.toList.filter (fun c => c.isDigit || c = '.' || c = ',')).filter
    (fun c => c ≠ '.')).map (fun c => if c = ',' then '.' else c))).getD 0

/-- `extrair_futuros_direto.parse_valor` (extrair_futuros_direto.py lines 10-28),
textually identical to `main.parse_valor`. -/
def parse_valor_futuros (s : String) : ℚ :=
  if s = "" then 0
  else if (s.toList.filter (fun c => c.isDigit || c = '.' || c = ',')).isEmpty then 0
  else (pyFloat? (((s.toList.filter (fun c => c.isDigit || c = '.' || c = ',')).filter
    (fun c => c ≠ '.')).map (fun c => if c = ',' then '.' else c))).getD 0

/-! ## Price-correction heuristic (`main.py`) -/

/-- Decimal digit count with structural fuel; `digitCount n` is the length of
Python `str(n)` for a non-negative integer `n`.  The fuel `n` itself always
suffices since the value shrinks by a factor 10 each step. -/
def digitCountAux : ℕ → ℕ → ℕ
  | _, 0 => 1
  | n, fuel + 1 => if n < 10 then 1 else digitCountAux (n / 10) fuel + 1

def digitCount (n : ℕ) : ℕ := digitCountAux n n

/-- Python `int()` on an exact rational: truncation toward zero. -/
def truncPy (q : ℚ) : ℤ := if q < 0 then ⌈q⌉ else ⌊q⌋

/-- Length of Python `str(int(q))`: a sign character for negatives plus the
decimal digits of the magnitude. -/
def strIntLen (q : ℚ) : ℕ :=
  (if truncPy q < 0 then 1 else 0) + digitCount (truncPy q).natAbs

/-- The price-correction heuristic of `processar_resultado_customizado`
(main.py lines 843-849) and of `processar_notas` (main.py lines 1021-1029):
`if preco > 10000 and len(str(int(preco))) >= 5: preco = preco / 100`. -/
def corrigirPreco (preco : ℚ) : ℚ :=
  if 10000 < preco ∧ 5 ≤ strIntLen preco then preco / 100 else preco

/-! ## Column locator (`extrator_notas.encontrar_coluna`,
`NotaCobretagemParser._encontrar_indice`) -/

/-- `for i, col in enumerate(l): if p(col): return i` with `-1` fallback. -/
def buscaIdx (p : String → Bool) : List String → ℕ → Int
  | [], _ => -1
  | c :: r, i => if p c then (i : Int) else buscaIdx p r (i + 1)

/-- Common-keyword list of the third pass of `encontrar_coluna`
(extrator_notas.py lines 951-953). -/
def KEYWORDS_COMUNS : List String :=
  ["titulo", "ativo", "papel", "codigo", "especificacao", "especificação",
   "qtd", "quant", "quantidade", "preco", "preço", "valor", "ajuste",
   "tipo", "c/v", "compra", "venda", "cv", "operacao", "operação"]

/-- `extrator_notas.encontrar_coluna` (extrator_notas.py lines 934-964):
exact match, then substring match, then a shared-keyword pass. -/
def encontrar_coluna (cabecalho possibilidades : List String) : Int :=
  if buscaIdx (fun col => possibilidades.any (fun p => lowerStr p = lowerStr col))
      cabecalho 0 ≠ -1 then
    buscaIdx (fun col => possibilidades.any (fun p => lowerStr p = lowerStr col))
      cabecalho 0
  else if buscaIdx (fun col => possibilidades.any
      (fun p => containsSub (lowerStr col) (lowerStr p))) cabecalho 0 ≠ -1 then
    buscaIdx (fun col => possibilidades.any
      (fun p => containsSub (lowerStr col) (lowerStr p))) cabecalho 0
  else
    buscaIdx (fun col => KEYWORDS_COMUNS.any (fun k =>
        containsSub (lowerStr col) k &&
          possibilidades.any (fun p => containsSub (lowerStr p) k)))
      cabecalho 0

/-- `NotaCobretagemParser._encontrar_indice` (advanced_parser.py lines 512-518):
a single substring pass with candidate-term priority. -/
def encontrarIndiceAdv (cabecalho termosPossiveis : List String) : Int :=
  match termosPossiveis.findSome? (fun termo =>
    let i := buscaIdx (fun celula => containsSub (lowerStr celula) termo) cabecalho 0
    if i = -1 then none else some i) with
  | some i => i
  | none => -1

/-! ## Transaction records -/

/-- A transaction dictionary as built by the extraction passes.  The union of
the keys used across the passes; passes that do not set a key leave the
default (`""` / `0`), matching `dict.get` fallbacks at the use sites. -/
structure Transacao where
  tipo : String := ""
  ativo : String := ""
  ticker : String := ""
  vencimento : String := ""
  quantidade : ℚ := 0
  preco : ℚ := 0
  valorTotal : ℚ := 0
  tipoNegocio : String := ""
  dc : String := ""
  valorOperacao : ℚ := 0
  taxaOperacional : ℚ := 0
  deriving DecidableEq, Repr

/-! ## Cross-pass merge and deduplication (`extrair_nota_corretagem`) -/

/-- The similarity key used by every dedup check in
`extrair_nota_corretagem` (extrator_notas.py lines 136-138, 218-220,
268-270): asset, quantity and price — the type is not compared. -/
def chaveDedup (t : Transacao) : String × ℚ × ℚ := (t.ativo, t.quantidade, t.preco)

/-- `if not any(similar): todas_transacoes.append(t)` — append a candidate
unless a similar transaction is already accumulated. -/
def addSeNaoSimilar (acc : List Transacao) (t : Transacao) : List Transacao :=
  if acc.any (fun tr =>
      tr.ativo = t.ativo ∧ tr.quantidade = t.quantidade ∧ tr.preco = t.preco) then acc
  else acc ++ [t]

/-- The pass-merging logic of `extrair_nota_corretagem` (extrator_notas.py
lines 110-275), as a function of the candidate lists produced by each pass:
1. table transactions and per-section transactions are extended
   unconditionally;
2. full-text candidates are added with a dedup check, but only when the list
   is still empty or the text carries one of the B3/BOVESPA/BMF markers
   (`flagsTexto`);
3. BMF-pattern candidates are added with the same dedup check;
4. the aggressive BMF heuristic candidates are added (same check) only when
   the list is still empty and a BMF keyword occurs in the text (`kwBmf`). -/
def mergeTransacoes (tabelas : List Transacao) (secoes : List (List Transacao))
    (flagsTexto : Bool) (textoCompleto : List Transacao)
    (bmf : List Transacao) (kwBmf : Bool) (heuristica : List Transacao) :
    List Transacao :=
  let todas := tabelas ++ secoes.flatten
  let todas := if todas.isEmpty || flagsTexto
    then textoCompleto.foldl addSeNaoSimilar todas else todas
  let todas := bmf.foldl addSeNaoSimilar todas
  if todas.isEmpty && kwBmf then heuristica.foldl addSeNaoSimilar todas else todas

/-- Occurrences of a dedup key in a transaction list. -/
def countChave (k : String × ℚ × ℚ) (l : List Transacao) : ℕ :=
  l.countP (fun t => chaveDedup t = k)

/-! ## Placeholder rule (`extrair_nota_corretagem`, extrator_notas.py 293-301) -/

/-- Python truthiness of an optional string. -/
def truthyStr : Option String → Bool
  | none => false
  | some s => !(s = "")

/-- The generic transaction inserted when nothing was extracted. -/
def placeholderTrans : Transacao :=
  { tipo := "X", ativo := "NOTA SEM TRANSAÇÕES", quantidade := 1, preco := 0,
    valorTotal := 0 }

/-- `if not resultado["transacoes"] and (resultado["taxas"] or
resultado["numero_nota"]): resultado["transacoes"] = [ ... ]`. -/
def finalizarTransacoes (todas : List Transacao) (taxas : List (String × ℚ))
    (numeroNota : Option String) : List Transacao :=
  if todas.isEmpty && (!taxas.isEmpty || truthyStr numeroNota)
  then [placeholderTrans] else todas

/-- `if not resultado["transacoes"] and (resultado["taxas"] or
resultado["corretora"] != "Desconhecida"): resultado["transacoes"] = [ ... ]`
(advanced_parser.py lines 564-577): the placeholder variant of
`analisar_pdf_nota_corretagem` tests the broker name, not the note number. -/
def finalizarTransacoesAdv (todas : List Transacao) (taxas : List (String × ℚ))
    (corretora : String) : List Transacao :=
  if todas.isEmpty && (!taxas.isEmpty || !(corretora = "Desconhecida"))
  then [placeholderTrans] else todas

/-! ## Futures-contract decomposition -/

/-- `re.match(r'([A-Z]{3,4})([A-Z])([0-9]{2})', ativo)`: the greedy quantifier
tries a four-letter root first and backtracks to three letters
(extrator_notas.py line 505). -/
def futMatch (ativo : String) : Option (String × Char × String) :=
  let isUp := fun c : Char => 'A' ≤ c ∧ c ≤ 'Z'
  let tenta4 : Option (String × Char × String) :=
    match ativo.toList with
    | a :: b :: c :: d :: e :: f :: g :: _ =>
      if isUp a ∧ isUp b ∧ isUp c ∧ isUp d ∧ isUp e ∧ f.isDigit ∧ g.isDigit then
        some (⟨[a, b, c, d]⟩, e, ⟨[f, g]⟩)
      else none
    | _ => none
  match tenta4 with
  | some r => some r
  | none =>
    match ativo.toList with
    | a :: b :: c :: d :: e :: f :: _ =>
      if isUp a ∧ isUp b ∧ isUp c ∧ isUp d ∧ e.isDigit ∧ f.isDigit then
        some (⟨[a, b, c]⟩, d, ⟨[e, f]⟩)
      else none
    | _ => none

/-- Month-code table of `extrair_transacoes_tabelas`
(extrator_notas.py lines 513-514). -/
def mesesNum (c : Char) : Option String :=
  List.lookup c
    [('F', "01"), ('G', "02"), ('H', "03"), ('J', "04"), ('K', "05"), ('M', "06"),
     ('N', "07"), ('Q', "08"), ('U', "09"), ('V', "10"), ('X', "11"), ('Z', "12")]

/-- Month-name table `meses_vencimento` of `extrair_contratos_futuros`
(extrair_futuros_direto.py lines 49-62). -/
def mesesVencimento (c : Char) : Option String :=
  List.lookup c
    [('F', "Janeiro"), ('G', "Fevereiro"), ('H', "Março"), ('J', "Abril"),
     ('K', "Maio"), ('M', "Junho"), ('N', "Julho"), ('Q', "Agosto"),
     ('U', "Setembro"), ('V', "Outubro"), ('X', "Novembro"), ('Z', "Dezembro")]

/-- Expiration derived from a futures-style asset code
(extrator_notas.py lines 505-523): month letter mapped through `mesesNum`,
the two-digit year widened with `"20"`, placeholder day `15`. -/
def vencimentoDoAtivo (ativo : String) : String :=
  match futMatch ativo with
  | some (_, mesLetra, ano) =>
    match mesesNum mesLetra with
    | some mes => "15/" ++ mes ++ "/" ++ ("20" ++ ano)
    | none => ""
  | none => ""

/-! ## A small backtracking matcher for the B3/Bovespa line pattern

`extrair_transacoes_tabelas` applies
`re.search(r'([CV])\s+VISTA\s+([A-Z\s]+)\s+([A-Z0-9]+)\s+(?:D[#]?)?\s+(\d+)\s+([\d,.]+)\s+([\d,.]+)\s+([CD])', linha_str, re.IGNORECASE)`
to each joined table row (extrator_notas.py line 353).  The matcher below
enumerates the alternatives of each greedy quantifier longest-first and the
positions left-to-right, which is exactly the Python engine's priority
order for this pattern. -/

/-- All ways to consume one-or-more characters of class `p`, greedy
(longest-first) order; each result is `(consumed, rest)`. -/
def classPlus (p : Char → Bool) (cs : List Char) : List (List Char × List Char) :=
  let run := cs.takeWhile p
  (List.range run.length).map (fun k =>
    let n := run.length - k
    (run.take n, cs.drop n))

/-- `\s+`: rests after consuming one or more whitespace, greedy order. -/
def spaces1 (cs : List Char) : List (List Char) :=
  (classPlus isSpacePy cs).map Prod.snd

/-- Case-insensitive literal match returning the rest. -/
def litIns : List Char → List Char → Option (List Char)
  | [], cs => some cs
  | _ :: _, [] => none
  | p :: ps, c :: cs => if p.toUpper = c.toUpper then litIns ps cs else none

/-- `[A-Z]` under `re.IGNORECASE`. -/
def letterIns (c : Char) : Bool := 'A' ≤ c.toUpper && c.toUpper ≤ 'Z'

/-- `[A-Z\s]` under `re.IGNORECASE`. -/
def azSpace (c : Char) : Bool := letterIns c || isSpacePy c

/-- `[A-Z0-9]` under `re.IGNORECASE`. -/
def alnumIns (c : Char) : Bool := letterIns c || c.isDigit

/-- `[\d,.]`. -/
def numCls (c : Char) : Bool := c.isDigit || c = ',' || c = '.'

/-- `(?:D[#]?)?` under `re.IGNORECASE`: rests in greedy order
(`D#`, then `D`, then nothing). -/
def optD (cs : List Char) : List (List Char) :=
  match cs with
  | c :: rest =>
    if c.toUpper = 'D' then
      match rest with
      | '#' :: r2 => [r2, rest, cs]
      | _ => [rest, cs]
    else [cs]
  | [] => [cs]

/-- The seven capture groups of the B3/Bovespa pattern. -/
structure BovGrupos where
  g1 : Char
  g2 : List Char
  g3 : List Char
  g4 : List Char
  g5 : List Char
  g6 : List Char
  g7 : Char
  deriving DecidableEq, Repr

/-- Final step of the Bovespa pattern: the `([CD])` capture. -/
def bovespaFim (c1 : Char) (g2 g3 g4 g5 g6 : List Char) (r15 : List Char) :
    List BovGrupos :=
  match r15 with
  | c7 :: _ =>
    if c7.toUpper = 'C' || c7.toUpper = 'D' then [⟨c1, g2, g3, g4, g5, g6, c7⟩]
    else []
  | [] => []

/-- All matches of the Bovespa pattern anchored at the head of `cs`,
in backtracking priority order. -/
def bovespaAt (cs : List Char) : List BovGrupos :=
  match cs with
  | [] => []
  | c1 :: r0 =>
    if c1.toUpper = 'C' || c1.toUpper = 'V' then
      (spaces1 r0).flatMap (fun r1 =>
        match litIns "VISTA".toList r1 with
        | none => []
        | some r2 =>
          (spaces1 r2).flatMap (fun r3 =>
            (classPlus azSpace r3).flatMap (fun p2 =>
              (spaces1 p2.2).flatMap (fun r5 =>
                (classPlus alnumIns r5).flatMap (fun p3 =>
                  (spaces1 p3.2).flatMap (fun r7 =>
                    (optD r7).flatMap (fun r8 =>
                      (spaces1 r8).flatMap (fun r9 =>
                        (classPlus (fun c => c.isDigit) r9).flatMap (fun p4 =>
                          (spaces1 p4.2).flatMap (fun r11 =>
                            (classPlus numCls r11).flatMap (fun p5 =>
                              (spaces1 p5.2).flatMap (fun r13 =>
                                (classPlus numCls r13).flatMap (fun p6 =>
                                  (spaces1 p6.2).flatMap
                                    (bovespaFim c1 p2.1 p3.1 p4.1 p5.1 p6.1))))))))))))))
    else []

/-- `re.search` for the Bovespa pattern: first match at the leftmost
matching position. -/
def bovespaSearch : List Char → Option BovGrupos
  | [] => none
  | c :: rest =>
    match (bovespaAt (c :: rest)).head? with
    | some g => some g
    | none => bovespaSearch rest

/-! ## `extrair_transacoes_tabelas` (extrator_notas.py lines 311-554) -/

/-- `str(col).strip() if col else ""` for a string cell. -/
def pyCell (c : String) : String := if c = "" then "" else stripStr c

/-- Python `str(row_list)` for cells free of quotes, backslashes and control
characters (the repr escaping is not modelled). -/
def pyReprRow (linha : List String) : String :=
  "[" ++ String.intercalate ", " (linha.map (fun c => "'" ++ c ++ "'")) ++ "]"

/-- `any("bovespa" in str(linha).lower() or "b3" in ... or "rvlistado" in ...
for linha in tabela)` (extrator_notas.py line 328). -/
def tabelaBovespa (tabela : List (List String)) : Bool :=
  tabela.any (fun linha =>
    let s := lowerStr (pyReprRow linha)
    containsSub s "bovespa" || containsSub s "b3" || containsSub s "rvlistado")

/-- The eleven column roles resolved by `extrair_transacoes_tabelas`
(extrator_notas.py lines 332-342). -/
structure ColunasNotas where
  tipo : Int
  ativo : Int
  quantidade : Int
  preco : Int
  valor : Int
  tipoNegocio : Int
  dc : Int
  vencimento : Int
  ticker : Int
  taxaOp : Int
  obs : Int
  deriving DecidableEq, Repr

def colunasNotas (cab : List String) : ColunasNotas where
  tipo := encontrar_coluna cab ["c/v", "cv", "tipo", "compra/venda", "operacao", "natureza", "c/v"]
  ativo := encontrar_coluna cab ["titulo", "ativo", "papel", "codigo", "mercadoria", "instrumento", "especificação do título"]
  quantidade := encontrar_coluna cab ["quantidade", "qtde", "quant", "qtd", "contratos", "qt"]
  preco := encontrar_coluna cab ["preco", "unitario", "unit", "cotacao", "valor/ajuste", "preco/ajuste", "ajuste", "preço / ajuste"]
  valor := encontrar_coluna cab ["valor", "total", "financeiro", "valor op", "valor operacao", "d/c", "valor operação / ajuste"]
  tipoNegocio := encontrar_coluna cab ["tipo negocio", "tipo de negocio", "mercado", "modalidade", "day trade"]
  dc := encontrar_coluna cab ["d/c", "debito/credito"]
  vencimento := encontrar_coluna cab ["vencimento", "venc", "data venc", "expiry", "prazo"]
  ticker := encontrar_coluna cab ["codigo", "ticker", "mercadoria", "symbol", "contrato"]
  taxaOp := encontrar_coluna cab ["taxa", "operacional", "corretagem"]
  obs := encontrar_coluna cab ["obs", "observacao", "informacoes", "*"]

/-- Cell at an already bounds-checked column. -/
def celula (linha : List String) (col : Int) : String := linha.getD col.toNat ""

def tipoDaLinha (cols : ColunasNotas) (linha : List String) : String :=
  if 0 ≤ cols.tipo ∧ cols.tipo < linha.length then
    let tipoRaw := upperStr (celula linha cols.tipo)
    if tipoRaw = "C" ∨ tipoRaw = "COMPRA" ∨ tipoRaw = "BUY" ∨ tipoRaw = "D" then "C"
    else if tipoRaw = "V" ∨ tipoRaw = "VENDA" ∨ tipoRaw = "SELL" ∨ tipoRaw = "C" then "V"
    else ""
  else ""

def ativoDaLinha (cols : ColunasNotas) (linha : List String) : String :=
  if 0 ≤ cols.ativo ∧ cols.ativo < linha.length then
    collapseWs (stripStr (celula linha cols.ativo))
  else "N/A"

/-- Shared numeric-cell pattern of lines 407-434:
`cell.replace('.','').replace(',','.')`, parsed when non-blank, `0` on failure. -/
def floatDaColuna (linha : List String) (col : Int) : ℚ :=
  if 0 ≤ col ∧ col < linha.length then
    let s := ((celula linha col).toList.filter (fun c => c ≠ '.')).map
      (fun c => if c = ',' then '.' else c)
    if stripStr ⟨s⟩ ≠ "" then (pyFloat? s).getD 0 else 0
  else 0

def tipoNegocioDaLinha (cols : ColunasNotas) (linha : List String) : String :=
  if 0 ≤ cols.tipoNegocio ∧ cols.tipoNegocio < linha.length then
    let tn := upperStr (stripStr (celula linha cols.tipoNegocio))
    if containsSub tn "DAY" ∨ containsSub tn "DAYTRADE" then "DAY TRADE" else tn
  else ""

def dcDaLinha (cols : ColunasNotas) (linha : List String) : String :=
  if 0 ≤ cols.dc ∧ cols.dc < linha.length then
    let d := upperStr (stripStr (celula linha cols.dc))
    if d = "D" ∨ d = "DEBITO" ∨ d = "DÉBITO" then "D"
    else if d = "C" ∨ d = "CREDITO" ∨ d = "CRÉDITO" then "C"
    else ""
  else ""

def valorOperacaoDaLinha (cols : ColunasNotas) (linha : List String) : ℚ :=
  if 0 ≤ cols.valor ∧ cols.valor < linha.length then
    let vs := stripStr (celula linha cols.valor)
    if vs.toList.any Char.isDigit then
      parse_valor ⟨vs.toList.filter (fun c => c ≠ 'C' ∧ c ≠ 'D')⟩
    else 0
  else 0

def taxaOperacionalDaLinha (cols : ColunasNotas) (linha : List String) : ℚ :=
  if 0 ≤ cols.taxaOp ∧ cols.taxaOp < linha.length then
    let ts := stripStr (celula linha cols.taxaOp)
    if ts ≠ "" then parse_valor ts else 0
  else 0

/-- `re.match(r'\d{2}/\d{2}/\d{4}', s)` (prefix match). -/
def matchDDslash (s : String) : Bool :=
  match s.toList with
  | a :: b :: '/' :: c :: d :: '/' :: e :: f :: g :: h :: _ =>
    a.isDigit && b.isDigit && c.isDigit && d.isDigit &&
      e.isDigit && f.isDigit && g.isDigit && h.isDigit
  | _ => false

/-- `re.match(r'\d{2}-\d{2}-\d{4}', s)`. -/
def matchDDdash (s : String) : Bool :=
  match s.toList with
  | a :: b :: '-' :: c :: d :: '-' :: e :: f :: g :: h :: _ =>
    a.isDigit && b.isDigit && c.isDigit && d.isDigit &&
      e.isDigit && f.isDigit && g.isDigit && h.isDigit
  | _ => false

/-- `re.match(r'\d{4}-\d{2}-\d{2}', s)`. -/
def matchYYYYdash (s : String) : Bool :=
  match s.toList with
  | a :: b :: c :: d :: '-' :: e :: f :: '-' :: g :: h :: _ =>
    a.isDigit && b.isDigit && c.isDigit && d.isDigit &&
      e.isDigit && f.isDigit && g.isDigit && h.isDigit
  | _ => false

/-- Expiration-cell normalisation (extrator_notas.py lines 487-500). -/
def formataVencimento (vs : String) : String :=
  if matchDDslash vs then vs
  else if matchDDdash vs then
    let p := splitOnChar '-' vs.toList
    String.mk (p.getD 0 []) ++ "/" ++ String.mk (p.getD 1 []) ++ "/" ++ String.mk (p.getD 2 [])
  else if matchYYYYdash vs then
    let p := splitOnChar '-' vs.toList
    String.mk (p.getD 2 []) ++ "/" ++ String.mk (p.getD 1 []) ++ "/" ++ String.mk (p.getD 0 [])
  else vs

def vencimentoDaLinha (cols : ColunasNotas) (linha : List String) : String :=
  if 0 ≤ cols.vencimento ∧ cols.vencimento < linha.length then
    let vs := stripStr (celula linha cols.vencimento)
    if vs ≠ "" then formataVencimento vs else ""
  else ""

/-- The body of the main row loop (extrator_notas.py lines 381-552);
`none` models `continue`/no append. -/
def processarLinhaNotas (cols : ColunasNotas) (linhaOrig : List String) :
    Option Transacao :=
  let linha := linhaOrig.map pyCell
  if linha.isEmpty ∨ linha.all (fun cell => cell = "") then none
  else
    let tipo0 := tipoDaLinha cols linha
    let ativo := ativoDaLinha cols linha
    let quantidade := floatDaColuna linha cols.quantidade
    let preco := floatDaColuna linha cols.preco
    let vt0 := floatDaColuna linha cols.valor
    let valorTotal := if vt0 = 0 ∧ 0 < preco ∧ 0 < quantidade then preco * quantidade else vt0
    let tipo1 := if tipo0 = "" ∧ valorTotal ≠ 0 then
        (if valorTotal < 0 then "C" else "V")
      else tipo0
    let tipoNeg := tipoNegocioDaLinha cols linha
    let dc := dcDaLinha cols linha
    let valorOp := valorOperacaoDaLinha cols linha
    let taxaOp := taxaOperacionalDaLinha cols linha
    let venc0 := vencimentoDaLinha cols linha
    let venc := if venc0 = "" ∧ 5 ≤ ativo.length then vencimentoDoAtivo ativo else venc0
    let tipo2 := if tipo1 = "" ∧ dc ≠ "" then
        (if dc = "D" then "C" else if dc = "C" then "V" else "")
      else tipo1
    if ativo ≠ "N/A" ∧ 0 < quantidade then
      some { tipo := if tipo2 = "" then "C" else tipo2, ativo := ativo, ticker := ativo,
             vencimento := venc, quantidade := quantidade, preco := preco,
             valorTotal := valorTotal, tipoNegocio := tipoNeg, dc := dc,
             valorOperacao := valorOp, taxaOperacional := taxaOp }
    else none

/-- Python `str.split()[0]` after a whitespace-containment check. -/
def primeiraPalavra (s : String) : String :=
  ⟨(s.toList.dropWhile isSpacePy).takeWhile (fun c => ¬ isSpacePy c)⟩

/-- The special Bovespa branch body for one row
(extrator_notas.py lines 346-378). -/
def linhaBovespa (linha : List String) : Option Transacao :=
  if 6 ≤ linha.length then
    match bovespaSearch (String.intercalate " " linha).toList with
    | some g =>
      let tipo := if g.g1.toUpper = 'C' then "C" else "V"
      let empresa := stripStr ⟨g.g2⟩
      let tipoAtivo := stripStr ⟨g.g3⟩
      let quantidade := parse_valor ⟨g.g4⟩
      let preco := parse_valor ⟨g.g5⟩
      let valorTotal := parse_valor ⟨g.g6⟩
      let ativo := empresa ++ " " ++ tipoAtivo
      let ticker := if containsSub empresa "PETROBRAS" then "PETR4"
        else if containsSub empresa " " then primeiraPalavra empresa else empresa
      some { tipo := tipo, ativo := ativo, ticker := ticker, quantidade := quantidade,
             preco := preco, valorTotal := valorTotal, tipoNegocio := "VISTA" }
    | none => none
  else none

/-- `extrair_transacoes_tabelas` restricted to one table: the Bovespa branch
(entered when the table content carries a Bovespa/B3 marker and at least one
of the type/asset/quantity columns is unresolved) followed by the main row
loop. -/
def extrairTransacoesTabela (tabela : List (List String)) : List Transacao :=
  if tabela.length < 2 then []
  else
    let cabecalho := (tabela.headD []).map (fun col => stripStr (lowerStr col))
    let cols := colunasNotas cabecalho
    let bov := tabelaBovespa tabela
    let branch :=
      if bov ∧ (cols.tipo = -1 ∨ cols.ativo = -1 ∨ cols.quantidade = -1) then
        (tabela.drop 1).filterMap linhaBovespa
      else []
    branch ++ (tabela.drop 1).filterMap (processarLinhaNotas cols)

/-- `extrair_transacoes_tabelas` (extrator_notas.py lines 311-554). -/
def extrair_transacoes_tabelas (tabelas : List (List (List String))) : List Transacao :=
  tabelas.flatMap extrairTransacoesTabela

/-! ## Table classification and row building (`advanced_parser.py`) -/

/-- `NotaCobretagemParser.KEYWORDS_TRANSACOES` (advanced_parser.py lines 64-71). -/
def KEYWORDS_TRANSACOES : List (List String) :=
  [["cv", "quant", "preco"],
   ["c/v", "tipo", "quantidade", "preco"],
   ["compra", "venda", "quantidade", "preco"],
   ["operacao", "quantidade", "preco", "valor"],
   ["negocios", "tipo", "qtde", "valor"],
   ["ativo", "tipo", "quantidade", "valor"]]

/-- An entry of `self.tabelas_formatadas`. -/
structure TabelaFormatada where
  cabecalho : List String
  dados : List (List String)
  cabecalhoStr : String
  eTabelaTransacoes : Bool
  deriving DecidableEq, Repr

/-- `NotaCobretagemParser._processar_tabelas` for one raw table
(advanced_parser.py lines 227-255): clean cells, drop blank rows, skip
tables shorter than two rows, classify by the keyword sets. -/
def processarTabela? (tabela : List (List String)) : Option TabelaFormatada :=
  let limpa := (tabela.map (fun linha => linha.map stripStr)).filter
    (fun l => l.any (fun cell => cell ≠ ""))
  if limpa.length < 2 then none
  else
    let cab := limpa.headD []
    let cabStr := String.intercalate " " (cab.map lowerStr)
    some { cabecalho := cab, dados := limpa.drop 1, cabecalhoStr := cabStr,
           eTabelaTransacoes := KEYWORDS_TRANSACOES.any
             (fun ks => ks.all (fun kw => containsSub cabStr kw)) }

/-- `NotaCobretagemParser._processar_tabelas` over all raw tables. -/
def processarTabelas (tabelas : List (List (List String))) : List TabelaFormatada :=
  tabelas.filterMap processarTabela?

/-- `NotaCobretagemParser._extrair_transacoes_de_tabela`
(advanced_parser.py lines 356-422). -/
def extrairTransacoesDeTabelaAdv (tf : TabelaFormatada) : List Transacao :=
  let cab := tf.cabecalho.map lowerStr
  let colTipo := encontrarIndiceAdv cab
    ["c/v", "cv", "tipo", "compra/venda", "operacao", "natureza", "c/v"]
  let colAtivo := encontrarIndiceAdv cab
    ["titulo", "ativo", "papel", "especificacao", "codigo", "mercadoria", "ativo", "instrumento"]
  let colQuant := encontrarIndiceAdv cab
    ["quantidade", "qtde", "quant", "qtd", "contratos", "qt"]
  let colPreco := encontrarIndiceAdv cab
    ["preco", "valor", "unitario", "unit", "ajuste", "liquidacao", "valor/ajuste"]
  let colVT := encontrarIndiceAdv cab
    ["valor op", "total", "financeiro", "d/c", "valor de operacao"]
  if colAtivo = -1 ∨ colQuant = -1 then []
  else
    tf.dados.filterMap (fun linha =>
      if (linha.length : Int) ≤ max colTipo (max colAtivo colQuant) then none
      else
        let tipoStr := if 0 ≤ colTipo then upperStr (stripStr (celula linha colTipo)) else ""
        let tipo :=
          if tipoStr = "C" ∨ tipoStr = "COMPRA" ∨ tipoStr = "COMPRAR" ∨ tipoStr = "BUY"
              ∨ tipoStr = "COMPRAS" ∨ tipoStr = "D" then "C"
          else if tipoStr = "V" ∨ tipoStr = "VENDA" ∨ tipoStr = "VENDER" ∨ tipoStr = "SELL"
              ∨ tipoStr = "VENDAS" ∨ tipoStr = "C" then "V"
          else tipoStr
        let ativo := collapseWs (if 0 ≤ colAtivo then stripStr (celula linha colAtivo) else "N/A")
        let quantidade := converter_para_float
          (if 0 ≤ colQuant then stripStr (celula linha colQuant) else "0")
        let preco := if 0 ≤ colPreco then
            (if colPreco < linha.length then converter_para_float (stripStr (celula linha colPreco))
             else 0)
          else converter_para_float "0"
        let valorTotal := if 0 ≤ colVT then
            (if colVT < linha.length then converter_para_float (stripStr (celula linha colVT))
             else quantidade * preco)
          else converter_para_float "0"
        let tipo2 := if tipo = "" ∧ valorTotal ≠ 0 then
            (if valorTotal < 0 then "C" else "V")
          else if tipo = "" then "C" else tipo
        if ativo ≠ "" ∧ 0 < quantidade then
          some { tipo := tipo2, ativo := ativo, quantidade := quantidade,
                 preco := preco, valorTotal := valorTotal }
        else none)

/-- The table stage of `NotaCobretagemParser._extrair_transacoes`
(advanced_parser.py lines 347-350): only tables whose
`e_tabela_transacoes` flag is set contribute rows. -/
def transacoesDasTabelasAdv (tfs : List TabelaFormatada) : List Transacao :=
  tfs.foldl (fun acc tf =>
    if tf.eTabelaTransacoes then acc ++ extrairTransacoesDeTabelaAdv tf else acc) []

/-! ## Fee extraction -/

/-- `match.group(1).replace('.', '').replace(',', '.')` then `float(...)`. -/
def parseTaxaStr (s : String) : Option ℚ :=
  pyFloat? ((s.toList.filter (fun c => c ≠ '.')).map (fun c => if c = ',' then '.' else c))

/-- `padroes_taxas` of `extrair_taxas` (extrator_notas.py lines 878-916);
the regex pattern strings are opaque data handed to the search oracle. -/
def PADROES_TAXAS_NOTAS : List (String × List String) :=
  [("taxa_liquidacao",
    ["taxa\\s+de\\s+liquida[cç][aã]o\\s*:?\\s*(?:R\\$)?\\s*([\\d\\.,]+)",
     "liquida[cç][aã]o\\s*:?\\s*(?:R\\$)?\\s*([\\d\\.,]+)"]),
   ("taxa_registro",
    ["taxa\\s+de\\s+registro\\s*:?\\s*(?:R\\$)?\\s*([\\d\\.,]+)",
     "registro\\s*:?\\s*(?:R\\$)?\\s*([\\d\\.,]+)"]),
   ("emolumentos", ["emolumentos\\s*:?\\s*(?:R\\$)?\\s*([\\d\\.,]+)"]),
   ("taxa_operacional",
    ["taxa\\s+(?:de\\s+)?operacional\\s*:?\\s*(?:R\\$)?\\s*([\\d\\.,]+)",
     "operacional\\s*:?\\s*(?:R\\$)?\\s*([\\d\\.,]+)",
     "taxa\\s+(?:de\\s+)?opera[çc][aã]o\\s*:?\\s*(?:R\\$)?\\s*([\\d\\.,]+)"]),
   ("corretagem", ["corretagem\\s*:?\\s*(?:R\\$)?\\s*([\\d\\.,]+)"]),
   ("iss", ["(?:imposto|i\\.?s\\.?s\\.?)\\s*:?\\s*(?:R\\$)?\\s*([\\d\\.,]+)"]),
   ("irrf", ["(?:i\\.?r\\.?r\\.?f\\.?|imposto\\s+de\\s+renda)\\s*:?\\s*(?:R\\$)?\\s*([\\d\\.,]+)"]),
   ("valor_liquido",
    ["(?:valor|l[ií]quido)\\s+(?:l[ií]quido|para|da\\s+nota)(?:\\s+\\d{2}/\\d{2}/\\d{4})?\\s*:?\\s*(?:R\\$)?\\s*([\\d\\.,]+)",
     "(?:total|l[ií]quido)\\s+(?:l[ií]quido|para\\s+liquidac[aã]o)(?:\\s+\\d{2}/\\d{2}/\\d{4})?\\s*:?\\s*(?:R\\$)?\\s*([\\d\\.,]+)"]),
   ("taxa_ajuste", ["(?:taxa\\s+de\\s+)?ajuste\\s*:?\\s*(?:R\\$)?\\s*([\\d\\.,]+)"]),
   ("valor_operacao_dc",
    ["valor\\s+(?:de|da)?\\s*opera[çc][aã]o\\s*:?\\s*(?:R\\$)?\\s*([\\d\\.,]+)",
     "valor\\s+(?:d/c|debito/credito)\\s*:?\\s*(?:R\\$)?\\s*([\\d\\.,]+)"])]

/-- Pattern loop for one fee of `extrair_taxas` (extrator_notas.py lines
919-929): the per-pattern search results are consumed in order; a match
whose captured amount fails to parse is skipped (`except: continue`). -/
def primeiraTaxa : List (Option String) → Option ℚ
  | [] => none
  | none :: resto => primeiraTaxa resto
  | some s :: resto =>
    match parseTaxaStr s with
    | some v => some v
    | none => primeiraTaxa resto

/-- `extrair_taxas` (extrator_notas.py lines 873-931) over a search oracle:
`search pat` is the capture of `re.search(pat, texto, re.IGNORECASE)` on the
document text, `none` when the pattern does not match. -/
def extrairTaxasNotas (search : String → Option String) : List (String × ℚ) :=
  PADROES_TAXAS_NOTAS.filterMap (fun np =>
    (primeiraTaxa (np.2.map search)).map (fun v => (np.1, v)))

/-- `padroes_taxas` of `NotaCobretagemAnalyzer._extrair_taxas`
(pdf_analyzer.py lines 175-188). -/
def PADROES_TAXAS_PDF : List (String × String) :=
  [("taxa_liquidacao", "Taxa de [Ll]iquida[çc][ãa]o:?\\s*([\\d,.]+)"),
   ("taxa_registro", "Taxa de [Rr]egistro:?\\s*([\\d,.]+)"),
   ("taxa_termo", "Taxa de [Tt]ermo/[Oo]p[çc][õo]es:?\\s*([\\d,.]+)"),
   ("taxa_ana", "Taxa A\\.N\\.A:?\\s*([\\d,.]+)"),
   ("emolumentos", "[Ee]molumentos:?\\s*([\\d,.]+)"),
   ("taxa_operacional", "Taxa [Oo]peracional:?\\s*([\\d,.]+)"),
   ("execucao", "[Ee]xecu[çc][ãa]o:?\\s*([\\d,.]+)"),
   ("corretagem", "[Cc]orretagem:?\\s*([\\d,.]+)"),
   ("iss", "ISS:?\\s*([\\d,.]+)"),
   ("irrf", "I\\.R\\.R\\.F:?\\s*([\\d,.]+)"),
   ("outras_taxas", "[Oo]utras [Tt]axas:?\\s*([\\d,.]+)"),
   ("valor_liquido", "[Vv]alor [Ll][íi]quido:?\\s*([\\d,.]+)")]

/-- `NotaCobretagemAnalyzer._extrair_taxas` (pdf_analyzer.py lines 190-199):
every fee name is always emitted; a missing match or an unparseable capture
yields `0.0`. -/
def extrairTaxasPdf (search : String → Option String) : List (String × ℚ) :=
  PADROES_TAXAS_PDF.map (fun np =>
    (np.1, match search np.2 with
      | some s => (parseTaxaStr s).getD 0
      | none => 0))

/-! ## Supporting lemmas -/

lemma pyFloatCore_false_nonneg (resto : List Char) (v : ℚ)
    (hv : pyFloatCore false resto = some v) : 0 ≤ v := by
  unfold pyFloatCore at hv
  rcases Option.bind_eq_some.mp hv with ⟨p, -, hp⟩
  by_cases hok : (p.1.all Char.isDigit && p.2.all Char.isDigit
      && !(p.1.isEmpty && p.2.isEmpty)) = true
  · rw [if_pos hok] at hp
    simp only [Bool.false_eq_true, if_false, Option.some.injEq] at hp
    rw [← hp, Rat.mkRat_eq_div]
    positivity
  · rw [if_neg hok] at hp; cases hp

lemma trimPy_subset (cs : List Char) : ∀ c ∈ trimPy cs, c ∈ cs := by
  intro c hc
  rw [trimPy, List.mem_reverse] at hc
  have h1 := (List.dropWhile_sublist (l := (cs.dropWhile isSpacePy).reverse)
    (p := isSpacePy)).subset hc
  rw [List.mem_reverse] at h1
  exact (List.dropWhile_sublist (l := cs) (p := isSpacePy)).subset h1

lemma pyFloat?_nonneg (cs : List Char) (hcs : ∀ c ∈ cs, c.isDigit ∨ c = '.')
    (v : ℚ) (hv : pyFloat? cs = some v) : 0 ≤ v := by
  unfold pyFloat? at hv
  have hneg : (decide ((trimPy cs).head? = some '-')) = false := by
    cases hh : (trimPy cs).head? with
    | none => simp
    | some c =>
      have hc := hcs c (trimPy_subset cs c (List.mem_of_mem_head? hh))
      have : c ≠ '-' := by rintro rfl; revert hc; decide
      simp [this]
  rw [hneg] at hv
  exact pyFloatCore_false_nonneg _ v hv

lemma getD_nonneg (o : Option ℚ) (h : ∀ v, o = some v → 0 ≤ v) : 0 ≤ o.getD 0 := by
  cases o with
  | none => simp
  | some v => simpa using h v rfl

lemma not_mem_of_contains_eq_false {l : List Char} {a : Char}
    (h : l.contains a = false) : a ∉ l := by
  intro hm
  simp at h
  exact h hm

/-- The separator case splits of the two canonical parsers coincide. -/
lemma transformNotas_eq_transformAdv (v : List Char) :
    transformNotas v = transformAdv v := by
  unfold transformNotas transformAdv
  cases hc : v.contains ',' with
  | false => simp [hc]
  | true =>
    cases hd : v.contains '.' with
    | true => simp [hc, hd]
    | false =>
      simp only [hc, hd, Bool.and_false, Bool.false_eq_true, if_false, if_true]
      have hfe : v.filter (fun c => c ≠ '.') = v := by
        rw [List.filter_eq_self]
        intro a ha
        simp only [ne_eq, decide_not, Bool.not_eq_eq_eq_not, Bool.not_true,
          decide_eq_false_iff_not]
        rintro rfl
        exact not_mem_of_contains_eq_false hd ha
      rw [hfe]

lemma nonneg_after_transform (l : List Char)
    (hl : ∀ c ∈ l, c.isDigit ∨ c = '.' ∨ c = ',') :
    0 ≤ (pyFloat? ((l.filter (fun c => c ≠ '.')).map
      (fun c => if c = ',' then '.' else c))).getD 0 := by
  apply getD_nonneg
  intro w hw
  refine pyFloat?_nonneg _ ?_ w hw
  intro c hc
  obtain ⟨a, ha, rfl⟩ := List.mem_map.mp hc
  have ha1 : a ∈ l := List.mem_of_mem_filter ha
  by_cases hac : a = ','
  · simp [hac]
  · rw [if_neg hac]
    rcases hl a ha1 with h | h | h
    · exact Or.inl h
    · exact Or.inr h
    · exact absurd h hac

/-! ## Claim theorems -/

/-- C1: the canonical monetary parser strips every character except digits,
comma, period and minus and then treats the separators exactly as described:
with both present the periods are removed and the comma becomes the decimal
point, a lone comma becomes the decimal point, a lone period is kept.  This
is proved by showing `extrator_notas.parse_valor` extensionally equal to
`advanced_parser._converter_para_float`, whose three-way case split is the
claim's case description verbatim, together with the claimed values on
`"1.234,56"`, `"1234,56"`, the empty string and non-numeric garbage. -/
theorem parse_valor_canonical :
    (∀ s : String, parse_valor s = converter_para_float s)
    ∧ parse_valor "1.234,56" = 1234.56
    ∧ parse_valor "1234,56" = 1234.56
    ∧ parse_valor "" = 0
    ∧ parse_valor "abc R$ !" = 0 := by
  refine ⟨?_, ?_, ?_, by decide, by decide⟩
  · intro s
    unfold parse_valor converter_para_float
    rw [transformNotas_eq_transformAdv]
  · have h : parse_valor "1.234,56" = mkRat 123456 100 := by decide
    rw [h, Rat.mkRat_eq_div]; norm_num
  · have h : parse_valor "1234,56" = mkRat 123456 100 := by decide
    rw [h, Rat.mkRat_eq_div]; norm_num

/-- C10: the `parse_valor` variants of `main.py` and
`extrair_futuros_direto.py` strip the minus sign together with every other
non-`[0-9.,]` character, hence never return a negative value; in particular
`"-28,50"` parses to `28.5` in both, so a negative amount can never reach
the sign-based type inference through these parsers. -/
theorem parse_valor_variants_nonneg :
    (∀ s, 0 ≤ parse_valor_main s)
    ∧ (∀ s, 0 ≤ parse_valor_futuros s)
    ∧ (∀ s, parse_valor_main s = parse_valor_futuros s)
    ∧ parse_valor_main "-28,50" = 28.5
    ∧ parse_valor_futuros "-28,50" = 28.5 := by
  have hmain : ∀ s, 0 ≤ parse_valor_main s := by
    intro s
    unfold parse_valor_main
    split
    · exact le_refl 0
    · split
      · exact le_refl 0
      · apply nonneg_after_transform
        intro c hc
        have h := List.of_mem_filter hc
        simp only [Bool.or_eq_true, decide_eq_true_eq] at h
        rcases h with (h | h) | h
        · exact Or.inl h
        · exact Or.inr (Or.inl h)
        · exact Or.inr (Or.inr h)
  have hval : parse_valor_main "-28,50" = 28.5 := by
    have h : parse_valor_main "-28,50" = mkRat 2850 100 := by decide
    rw [h, Rat.mkRat_eq_div]; norm_num
  have heq : ∀ s, parse_valor_main s = parse_valor_futuros s := fun _ => rfl
  exact ⟨hmain, fun s => (heq s) ▸ hmain s, heq, hval, (heq _) ▸ hval⟩

/-- C3 (amended): in `extrair_nota_corretagem` (extrator_notas) an empty
merged transaction list together with a non-empty fee set or a resolved note
number yields exactly one placeholder transaction with quantity 1, price 0
and total 0, and a non-empty merged list is returned unchanged; in
`analisar_pdf_nota_corretagem` (advanced_parser) the trigger is a non-empty
fee set or a broker other than `"Desconhecida"` — the note number is not
consulted, so with no fees and an unknown broker no placeholder is added
even when a note number was resolved. -/
theorem finalizar_placeholder (todas : List Transacao) (taxas : List (String × ℚ))
    (numero : Option String) (corretora : String) :
    (todas = [] → (taxas ≠ [] ∨ truthyStr numero = true) →
      finalizarTransacoes todas taxas numero = [placeholderTrans]
        ∧ placeholderTrans.quantidade = 1 ∧ placeholderTrans.preco = 0
        ∧ placeholderTrans.valorTotal = 0)
    ∧ (todas ≠ [] → finalizarTransacoes todas taxas numero = todas)
    ∧ (todas = [] → (taxas ≠ [] ∨ corretora ≠ "Desconhecida") →
        finalizarTransacoesAdv todas taxas corretora = [placeholderTrans])
    ∧ (taxas = [] → corretora = "Desconhecida" →
        finalizarTransacoesAdv todas taxas corretora = todas)
    ∧ (todas ≠ [] → finalizarTransacoesAdv todas taxas corretora = todas) := by
  refine ⟨?_, ?_, ?_, ?_, ?_⟩
  · rintro rfl hsig
    refine ⟨?_, rfl, rfl, rfl⟩
    unfold finalizarTransacoes
    rw [if_pos]
    simp only [List.isEmpty_nil, Bool.true_and, Bool.or_eq_true, Bool.not_eq_eq_eq_not,
      Bool.not_false]
    rcases hsig with h | h
    · exact Or.inl (by simpa [List.isEmpty_iff] using h)
    · exact Or.inr h
  · intro h
    unfold finalizarTransacoes
    rw [if_neg]
    simp only [Bool.and_eq_true, List.isEmpty_iff]
    rintro ⟨h1, -⟩
    exact h h1
  · rintro rfl hsig
    unfold finalizarTransacoesAdv
    rw [if_pos]
    simp only [List.isEmpty_nil, Bool.true_and, Bool.or_eq_true, Bool.not_eq_eq_eq_not,
      Bool.not_false]
    rcases hsig with h | h
    · exact Or.inl (by simpa [List.isEmpty_iff] using h)
    · exact Or.inr (by simpa using h)
  · rintro rfl rfl
    unfold finalizarTransacoesAdv
    rw [if_neg]
    simp
  · intro h
    unfold finalizarTransacoesAdv
    rw [if_neg]
    simp only [Bool.and_eq_true, List.isEmpty_iff]
    rintro ⟨h1, -⟩
    exact h h1

theorem finalizar_placeholder_witness :
    finalizarTransacoes [] [("corretagem", mkRat 125 10)] none = [placeholderTrans]
      ∧ finalizarTransacoesAdv [] [] "XP Investimentos" = [placeholderTrans]
      ∧ placeholderTrans.quantidade = 1 ∧ placeholderTrans.preco = 0
      ∧ placeholderTrans.valorTotal = 0 :=
  ⟨((finalizar_placeholder [] [("corretagem", mkRat 125 10)] none "XP Investimentos").1
      rfl (Or.inl (by decide))).1,
   (finalizar_placeholder [] [] none "XP Investimentos").2.2.1 rfl
     (Or.inr (by decide)),
   rfl, rfl, rfl⟩

/-- C3 (counterexample): the placeholder condition of
`analisar_pdf_nota_corretagem` ignores the note number — with an empty
transaction list, no fees and broker `"Desconhecida"`, no placeholder is
added even though a note number (here `"12345"`, truthy) was resolved,
whereas `extrair_nota_corretagem` does add one in the same situation. -/
theorem placeholder_adv_ignora_numero :
    truthyStr (some "12345") = true
    ∧ finalizarTransacoes [] [] (some "12345") = [placeholderTrans]
    ∧ finalizarTransacoesAdv [] [] "Desconhecida" = [] := by decide

/-- C7: the futures decomposition maps month letters through the fixed table
F..Z, widens the two-digit year with `"20"` and assigns the placeholder day
15; `"WINJ25"` decomposes to root `"WIN"`, month letter `'J'` (April / `"04"`,
`"Abril"` in the month-name table of `extrair_contratos_futuros`), year
`"2025"` and expiration `"15/04/2025"`. -/
theorem futuros_decomposicao :
    (mesesNum 'F' = some "01" ∧ mesesNum 'G' = some "02" ∧ mesesNum 'H' = some "03"
      ∧ mesesNum 'J' = some "04" ∧ mesesNum 'K' = some "05" ∧ mesesNum 'M' = some "06"
      ∧ mesesNum 'N' = some "07" ∧ mesesNum 'Q' = some "08" ∧ mesesNum 'U' = some "09"
      ∧ mesesNum 'V' = some "10" ∧ mesesNum 'X' = some "11" ∧ mesesNum 'Z' = some "12")
    ∧ mesesVencimento 'J' = some "Abril"
    ∧ futMatch "WINJ25" = some ("WIN", 'J', "25")
    ∧ vencimentoDoAtivo "WINJ25" = "15/04/2025"
    ∧ (∀ s raiz mes ano m2, futMatch s = some (raiz, mes, ano) →
        mesesNum mes = some m2 →
        vencimentoDoAtivo s = "15/" ++ m2 ++ "/" ++ ("20" ++ ano)) := by
  refine ⟨by decide, by decide, by decide, by decide, ?_⟩
  intro s raiz mes ano m2 h1 h2
  simp [vencimentoDoAtivo, h1, h2]

theorem futuros_decomposicao_witness :
    vencimentoDoAtivo "WINJ25" = "15/" ++ "04" ++ "/" ++ ("20" ++ "25") :=
  futuros_decomposicao.2.2.2.2 "WINJ25" "WIN" 'J' "25" "04" (by decide) (by decide)

lemma one_le_digitCountAux (n fuel : ℕ) : 1 ≤ digitCountAux n fuel := by
  cases fuel with
  | zero => exact le_refl 1
  | succ f =>
    rw [digitCountAux]
    split
    · exact le_refl 1
    · omega

lemma digitCountAux_ge (k : ℕ) : ∀ fuel n, k ≤ fuel → 10 ^ k ≤ n →
    k + 1 ≤ digitCountAux n fuel := by
  induction k with
  | zero => intro fuel n _ _; exact one_le_digitCountAux n fuel
  | succ k ih =>
    intro fuel n hf hn
    match fuel with
    | f + 1 =>
      have hpow : (10 : ℕ) ^ 1 ≤ 10 ^ (k + 1) :=
        Nat.pow_le_pow_right (by norm_num) (by omega)
      have h10 : ¬ n < 10 := by
        simp only [pow_one] at hpow
        omega
      rw [digitCountAux, if_neg h10]
      have hdiv : 10 ^ k ≤ n / 10 := by
        rw [Nat.le_div_iff_mul_le (by norm_num)]
        calc 10 ^ k * 10 = 10 ^ (k + 1) := by ring
        _ ≤ n := hn
      have := ih f (n / 10) (by omega) hdiv
      omega

lemma digitCount_ge_five (n : ℕ) (hn : 10000 ≤ n) : 5 ≤ digitCount n := by
  have := digitCountAux_ge 4 n n (by omega) (by norm_num; omega)
  simpa [digitCount] using this

/-- C2 (amended): the length condition `len(str(int(preco))) >= 5` is implied
by `preco > 10000`, so the heuristic divides by 100 exactly when the parsed
price exceeds 10,000 — the source string's decimal separator is never
consulted. -/
theorem corrigirPreco_so_limite (q : ℚ) :
    corrigirPreco q = if 10000 < q then q / 100 else q := by
  unfold corrigirPreco
  by_cases h : 10000 < q
  · have hnn : ¬ q < 0 := by
      intro hq
      exact absurd (lt_trans hq (by norm_num)) (asymm h)
    have htr : truncPy q = ⌊q⌋ := by rw [truncPy, if_neg hnn]
    have hfl : (10000 : ℤ) ≤ ⌊q⌋ := Int.le_floor.mpr (by exact_mod_cast h.le)
    have hna : 10000 ≤ (truncPy q).natAbs := by rw [htr]; omega
    have h5 : 5 ≤ strIntLen q := by
      have := digitCount_ge_five _ hna
      rw [strIntLen]
      omega
    rw [if_pos ⟨h, h5⟩, if_pos h]
  · rw [if_neg (fun hc => h hc.1), if_neg h]

/-- C2 (counterexample): the amount string `"10.500,50"` carries a visible
decimal separator, yet its parsed price `10500.5` is still divided by 100 by
the heuristic — the claimed "no embedded decimal point" trigger condition
does not exist in the code. -/
theorem corrigirPreco_altera_preco_decimal :
    (10000 : ℚ) < parse_valor "10.500,50"
    ∧ corrigirPreco (parse_valor "10.500,50") = parse_valor "10.500,50" / 100
    ∧ corrigirPreco (parse_valor "10.500,50") ≠ parse_valor "10.500,50" := by
  have h : parse_valor "10.500,50" = mkRat 1050050 100 := by decide
  have hlt : (10000 : ℚ) < parse_valor "10.500,50" := by rw [h]; decide
  have h5 : 5 ≤ strIntLen (parse_valor "10.500,50") := by rw [h]; decide
  refine ⟨hlt, ?_, ?_⟩
  · rw [corrigirPreco, if_pos ⟨hlt, h5⟩]
  · rw [corrigirPreco, if_pos ⟨hlt, h5⟩, h, Rat.mkRat_eq_div]
    norm_num

lemma buscaIdx_eq_neg_one_iff (p : String → Bool) (l : List String) (i : ℕ) :
    buscaIdx p l i = -1 ↔ ∀ c ∈ l, p c = false := by
  induction l generalizing i with
  | nil => simp [buscaIdx]
  | cons c r ih =>
    rw [buscaIdx]
    by_cases h : p c = true
    · rw [if_pos h]
      constructor
      · intro hx; exfalso; omega
      · intro hall
        exact absurd (hall c (by simp)) (by simp [h])
    · have h' : p c = false := by simpa using h
      rw [if_neg (by simp [h']), ih, List.forall_mem_cons]
      simp [h']

lemma buscaIdx_append (p : String → Bool) (pre : List String) (col : String)
    (suf : List String) (n : ℕ) (hpre : ∀ c ∈ pre, p c = false)
    (hcol : p col = true) :
    buscaIdx p (pre ++ col :: suf) n = ((pre.length + n : ℕ) : Int) := by
  induction pre generalizing n with
  | nil => simp [buscaIdx, hcol]
  | cons c r ih =>
    rw [List.cons_append, buscaIdx,
      if_neg (by simp [hpre c (List.mem_cons_self c r)]),
      ih (n + 1) (fun x hx => hpre x (List.mem_cons_of_mem c hx))]
    rw [List.length_cons]
    push_cast
    omega

lemma encontrarIndiceAdv_nil (cab : List String) : encontrarIndiceAdv cab [] = -1 := rfl

lemma encontrarIndiceAdv_cons (cab : List String) (t : String) (r : List String) :
    encontrarIndiceAdv cab (t :: r) =
      if buscaIdx (fun celula => containsSub (lowerStr celula) t) cab 0 = -1
      then encontrarIndiceAdv cab r
      else buscaIdx (fun celula => containsSub (lowerStr celula) t) cab 0 := by
  by_cases h : buscaIdx (fun celula => containsSub (lowerStr celula) t) cab 0 = -1
  · rw [if_pos h]
    simp only [encontrarIndiceAdv, List.findSome?_cons]
    rw [if_pos h]
  · rw [if_neg h]
    simp only [encontrarIndiceAdv, List.findSome?_cons]
    rw [if_neg h]

/-- C8 (counterexample): with header cell `"quant."` and candidate term
`"quantidade"` neither an exact nor a substring match exists, yet the third
(shared-keyword) pass of `encontrar_coluna` resolves the column to 0. -/
theorem encontrar_coluna_quant_abreviada :
    encontrar_coluna ["quant."] ["quantidade"] = 0
    ∧ lowerStr "quantidade" ≠ lowerStr "quant."
    ∧ containsSub (lowerStr "quant.") (lowerStr "quantidade") = false := by decide

/-- C8 (amended): `encontrar_coluna` searches header cells in three passes —
exact case-insensitive match, substring match, then a shared-keyword pass in
which a header cell containing one of a fixed common-keyword list matches
whenever that keyword also occurs in some candidate term — each pass
returning the index of its first matching cell, a pass consulted only when
every earlier pass failed on every cell, and the `-1` sentinel returned
exactly when all three passes fail; `_encontrar_indice` (advanced_parser)
instead runs a single substring pass with candidate-term priority, returning
the first cell index containing the first term contained anywhere, with `-1`
exactly when no term occurs in any cell. -/
theorem encontrar_coluna_tres_passos (cab poss : List String) :
    (∀ pre col suf, cab = pre ++ col :: suf →
       (poss.any (fun p => lowerStr p = lowerStr col)) = true →
       (∀ c ∈ pre, (poss.any (fun p => lowerStr p = lowerStr c)) = false) →
       encontrar_coluna cab poss = pre.length)
    ∧ ((∀ c ∈ cab, (poss.any (fun p => lowerStr p = lowerStr c)) = false) →
       ∀ pre col suf, cab = pre ++ col :: suf →
         (poss.any (fun p => containsSub (lowerStr col) (lowerStr p))) = true →
         (∀ c ∈ pre, (poss.any (fun p => containsSub (lowerStr c) (lowerStr p))) = false) →
         encontrar_coluna cab poss = pre.length)
    ∧ ((∀ c ∈ cab, (poss.any (fun p => lowerStr p = lowerStr c)) = false) →
       (∀ c ∈ cab, (poss.any (fun p => containsSub (lowerStr c) (lowerStr p))) = false) →
       ∀ pre col suf, cab = pre ++ col :: suf →
         (KEYWORDS_COMUNS.any (fun k => containsSub (lowerStr col) k &&
            poss.any (fun p => containsSub (lowerStr p) k))) = true →
         (∀ c ∈ pre, (KEYWORDS_COMUNS.any (fun k => containsSub (lowerStr c) k &&
            poss.any (fun p => containsSub (lowerStr p) k))) = false) →
         encontrar_coluna cab poss = pre.length)
    ∧ (encontrar_coluna cab poss = -1 ↔
        (∀ c ∈ cab, (poss.any (fun p => lowerStr p = lowerStr c)) = false)
        ∧ (∀ c ∈ cab, (poss.any (fun p => containsSub (lowerStr c) (lowerStr p))) = false)
        ∧ (∀ c ∈ cab, (KEYWORDS_COMUNS.any (fun k => containsSub (lowerStr c) k &&
             poss.any (fun p => containsSub (lowerStr p) k))) = false))
    ∧ (encontrarIndiceAdv cab poss = -1 ↔
        ∀ t ∈ poss, ∀ c ∈ cab, containsSub (lowerStr c) t = false)
    ∧ (∀ tpre t tsuf, poss = tpre ++ t :: tsuf →
        (∀ u ∈ tpre, ∀ c ∈ cab, containsSub (lowerStr c) u = false) →
        ∀ pre col suf, cab = pre ++ col :: suf →
          containsSub (lowerStr col) t = true →
          (∀ c ∈ pre, containsSub (lowerStr c) t = false) →
          encontrarIndiceAdv cab poss = pre.length) := by
  refine ⟨?_, ?_, ?_, ?_, ?_, ?_⟩
  · rintro pre col suf rfl hcol hpre
    have hb := buscaIdx_append
      (fun c => poss.any (fun p => lowerStr p = lowerStr c)) pre col suf 0 hpre hcol
    rw [encontrar_coluna, hb, if_pos (by omega)]
    push_cast
    omega
  · rintro hall1 pre col suf rfl hcol hpre
    have h1 : buscaIdx (fun col => poss.any (fun p => lowerStr p = lowerStr col))
        (pre ++ col :: suf) 0 = -1 := (buscaIdx_eq_neg_one_iff _ _ 0).mpr hall1
    have hb := buscaIdx_append
      (fun c => poss.any (fun p => containsSub (lowerStr c) (lowerStr p)))
      pre col suf 0 hpre hcol
    rw [encontrar_coluna, h1, if_neg (by omega), hb, if_pos (by omega)]
    push_cast
    omega
  · rintro hall1 hall2 pre col suf rfl hcol hpre
    have h1 : buscaIdx (fun col => poss.any (fun p => lowerStr p = lowerStr col))
        (pre ++ col :: suf) 0 = -1 := (buscaIdx_eq_neg_one_iff _ _ 0).mpr hall1
    have h2 : buscaIdx (fun col => poss.any
        (fun p => containsSub (lowerStr col) (lowerStr p)))
        (pre ++ col :: suf) 0 = -1 := (buscaIdx_eq_neg_one_iff _ _ 0).mpr hall2
    have hb := buscaIdx_append
      (fun c => KEYWORDS_COMUNS.any (fun k => containsSub (lowerStr c) k &&
        poss.any (fun p => containsSub (lowerStr p) k))) pre col suf 0 hpre hcol
    rw [encontrar_coluna, h1, if_neg (by omega), h2, if_neg (by omega), hb]
    push_cast
    omega
  · rw [encontrar_coluna]
    by_cases h1 : buscaIdx (fun col => poss.any (fun p => lowerStr p = lowerStr col))
        cab 0 = -1
    · rw [if_neg (by simp [h1])]
      by_cases h2 : buscaIdx (fun col => poss.any
          (fun p => containsSub (lowerStr col) (lowerStr p))) cab 0 = -1
      · rw [if_neg (by simp [h2]), buscaIdx_eq_neg_one_iff]
        exact ⟨fun h3 => ⟨(buscaIdx_eq_neg_one_iff _ _ 0).mp h1,
            (buscaIdx_eq_neg_one_iff _ _ 0).mp h2, h3⟩,
          fun h => h.2.2⟩
      · rw [if_pos h2]
        exact iff_of_false h2
          (fun h => h2 ((buscaIdx_eq_neg_one_iff _ _ 0).mpr h.2.1))
    · rw [if_pos h1]
      exact iff_of_false h1
        (fun h => h1 ((buscaIdx_eq_neg_one_iff _ _ 0).mpr h.1))
  · induction poss with
    | nil => simp [encontrarIndiceAdv_nil]
    | cons t r ih =>
      rw [encontrarIndiceAdv_cons]
      by_cases h : buscaIdx (fun celula => containsSub (lowerStr celula) t) cab 0 = -1
      · rw [if_pos h, ih, List.forall_mem_cons]
        have := (buscaIdx_eq_neg_one_iff
          (fun celula => containsSub (lowerStr celula) t) cab 0).mp h
        exact ⟨fun hr => ⟨this, hr⟩, fun hh => hh.2⟩
      · rw [if_neg h]
        refine iff_of_false h (fun hh => h ?_)
        exact (buscaIdx_eq_neg_one_iff _ _ 0).mpr (hh t (List.mem_cons_self t r))
  · rintro tpre t tsuf rfl htpre pre col suf rfl hcol hpre
    induction tpre with
    | nil =>
      rw [List.nil_append, encontrarIndiceAdv_cons]
      have hb := buscaIdx_append
        (fun c => containsSub (lowerStr c) t) pre col suf 0 hpre hcol
      rw [hb, if_neg (by omega)]
      push_cast
      omega
    | cons u r ih =>
      rw [List.cons_append, encontrarIndiceAdv_cons,
        if_pos ((buscaIdx_eq_neg_one_iff _ _ 0).mpr
          (htpre u (List.mem_cons_self u r)))]
      exact ih (fun x hx => htpre x (List.mem_cons_of_mem u hx))

theorem encontrar_coluna_tres_passos_witness :
    encontrar_coluna ["data", "quant."] ["quantidade"] = 1
    ∧ encontrarIndiceAdv ["data", "qtde x"] ["quantidade", "qtde"] = 1 := by
  constructor
  · exact (encontrar_coluna_tres_passos ["data", "quant."] ["quantidade"]).2.2.1
      (by decide) (by decide) ["data"] "quant." [] rfl (by decide) (by decide)
  · exact (encontrar_coluna_tres_passos
        ["data", "qtde x"] ["quantidade", "qtde"]).2.2.2.2.2
      ["quantidade"] "qtde" [] rfl (by decide) ["data"] "qtde x" [] rfl
      (by decide) (by decide)

lemma countChave_cons (k : String × ℚ × ℚ) (t : Transacao) (l : List Transacao) :
    countChave k (t :: l) = countChave k l + (if chaveDedup t = k then 1 else 0) := by
  rw [countChave, countChave, List.countP_cons]
  by_cases h : chaveDedup t = k
  · rw [if_pos h, if_pos (by simpa using h)]
  · rw [if_neg h, if_neg (by simpa using h)]

lemma countChave_append_single (k : String × ℚ × ℚ) (l : List Transacao)
    (t : Transacao) :
    countChave k (l ++ [t]) = countChave k l + (if chaveDedup t = k then 1 else 0) := by
  rw [countChave, countChave, List.countP_append, List.countP_cons, List.countP_nil]
  by_cases h : chaveDedup t = k
  · rw [if_pos h, if_pos (by simpa using h)]
  · rw [if_neg h, if_neg (by simpa using h)]

lemma any_similar_iff (acc : List Transacao) (t : Transacao) :
    (acc.any (fun tr => tr.ativo = t.ativo ∧ tr.quantidade = t.quantidade
      ∧ tr.preco = t.preco)) = true ↔ countChave (chaveDedup t) acc ≠ 0 := by
  rw [List.any_eq_true]
  constructor
  · rintro ⟨tr, htr, hsim⟩
    simp only [decide_eq_true_eq] at hsim
    have hkey : chaveDedup tr = chaveDedup t := by
      simp [chaveDedup, hsim.1, hsim.2.1, hsim.2.2]
    intro h0
    rw [countChave, List.countP_eq_zero] at h0
    exact absurd (by simp [hkey]) (h0 tr htr)
  · intro h0
    rw [countChave, Ne, List.countP_eq_zero] at h0
    push_neg at h0
    obtain ⟨tr, htr, hp⟩ := h0
    refine ⟨tr, htr, ?_⟩
    have hkey : chaveDedup tr = chaveDedup t := by simpa using hp
    rw [chaveDedup, chaveDedup, Prod.mk.injEq, Prod.mk.injEq] at hkey
    simp [hkey.1, hkey.2.1, hkey.2.2]

lemma addSeNaoSimilar_of_mem (acc : List Transacao) (t : Transacao)
    (h : countChave (chaveDedup t) acc ≠ 0) : addSeNaoSimilar acc t = acc := by
  rw [addSeNaoSimilar, if_pos ((any_similar_iff acc t).mpr h)]

lemma addSeNaoSimilar_of_not_mem (acc : List Transacao) (t : Transacao)
    (h : countChave (chaveDedup t) acc = 0) : addSeNaoSimilar acc t = acc ++ [t] := by
  rw [addSeNaoSimilar, if_neg]
  intro hc
  exact (any_similar_iff acc t).mp hc h

lemma countChave_foldl (cands : List Transacao) :
    ∀ (base : List Transacao) (k), countChave k (cands.foldl addSeNaoSimilar base) =
      if countChave k base = 0 then min (countChave k cands) 1
      else countChave k base := by
  induction cands with
  | nil =>
    intro base k
    rw [List.foldl_nil]
    by_cases h : countChave k base = 0
    · rw [if_pos h, h]; rfl
    · rw [if_neg h]
  | cons c cs ih =>
    intro base k
    rw [List.foldl_cons]
    by_cases hc : countChave (chaveDedup c) base = 0
    · rw [addSeNaoSimilar_of_not_mem base c hc, ih]
      by_cases hk : chaveDedup c = k
      · subst hk
        have h1 : countChave (chaveDedup c) (base ++ [c]) = 1 := by
          rw [countChave_append_single, hc, if_pos rfl]
        rw [h1, if_neg (by omega), if_pos hc, countChave_cons, if_pos rfl]
        omega
      · have h2 : countChave k (base ++ [c]) = countChave k base := by
          rw [countChave_append_single, if_neg hk]
          omega
        rw [h2, countChave_cons, if_neg hk]
        simp
    · rw [addSeNaoSimilar_of_mem base c hc, ih]
      by_cases hk : chaveDedup c = k
      · subst hk
        rw [if_neg hc, if_neg hc]
      · by_cases hb : countChave k base = 0
        · rw [if_pos hb, if_pos hb, countChave_cons, if_neg hk]
          simp
        · rw [if_neg hb, if_neg hb]

/-- C4 (amended): table-pass and section-pass transactions are appended to
the merged list unconditionally (duplicates among them survive); only
candidates from the full-text and BMF passes are checked against the
accumulated list, a candidate being dropped exactly when a transaction with
equal asset, quantity and price (type not compared) is already present — so
for any key, folding candidates in adds at most one transaction with that
key, and only when the key was absent. -/
theorem merge_dedup_parcial :
    (∀ tabelas secoes flags kw,
      mergeTransacoes tabelas secoes flags [] [] kw [] = tabelas ++ secoes.flatten)
    ∧ (∀ (base cands : List Transacao) k,
        countChave k (cands.foldl addSeNaoSimilar base) =
          if countChave k base = 0 then min (countChave k cands) 1
          else countChave k base) := by
  constructor
  · intro tabelas secoes flags kw
    simp [mergeTransacoes]
  · exact fun base cands k => countChave_foldl cands base k

/-- C4 (counterexample): a transaction produced by the table pass and an
identical one (equal type, asset, quantity and price) produced by a section
pass both survive into the merged list — no dedup check runs between those
two passes. -/
theorem merge_preserva_duplicatas :
    mergeTransacoes [⟨"C", "PETR4", "PETR4", "", 100, 10, 1000, "", "", 0, 0⟩]
      [[⟨"C", "PETR4", "PETR4", "", 100, 10, 1000, "", "", 0, 0⟩]] false [] [] false []
    = [⟨"C", "PETR4", "PETR4", "", 100, 10, 1000, "", "", 0, 0⟩,
       ⟨"C", "PETR4", "PETR4", "", 100, 10, 1000, "", "", 0, 0⟩] := by decide

lemma processarLinhaNotas_sem_colunas (cols : ColunasNotas) (linha : List String)
    (h : cols.ativo = -1 ∨ cols.quantidade = -1) :
    processarLinhaNotas cols linha = none := by
  rcases h with h | h
  · have ha : ativoDaLinha cols (linha.map pyCell) = "N/A" := by
      rw [ativoDaLinha, if_neg]
      rintro ⟨h0, -⟩
      rw [h] at h0
      exact absurd h0 (by norm_num)
    simp only [processarLinhaNotas]
    split
    · rfl
    · rw [if_neg]
      rintro ⟨hne, -⟩
      exact hne ha
  · have hq : floatDaColuna (linha.map pyCell) cols.quantidade = 0 := by
      rw [floatDaColuna, if_neg]
      rintro ⟨h0, -⟩
      rw [h] at h0
      exact absurd h0 (by norm_num)
    simp only [processarLinhaNotas]
    split
    · rfl
    · rw [if_neg]
      rintro ⟨-, hq0⟩
      rw [hq] at hq0
      exact absurd hq0 (by norm_num)

/-- C5 (amended): the mandatory-column guard holds in
`_extrair_transacoes_de_tabela` (advanced_parser): an unresolved asset or
quantity column yields zero transactions from the table.  In
`extrair_transacoes_tabelas` (extrator_notas) the same holds for every table
whose content does not carry a Bovespa/B3/RVLISTADO marker; marked tables
may still emit transactions through the dedicated regex branch. -/
theorem exige_colunas_minimas :
    (∀ tf : TabelaFormatada,
      encontrarIndiceAdv (tf.cabecalho.map lowerStr)
        ["titulo", "ativo", "papel", "especificacao", "codigo", "mercadoria",
         "ativo", "instrumento"] = -1
      ∨ encontrarIndiceAdv (tf.cabecalho.map lowerStr)
        ["quantidade", "qtde", "quant", "qtd", "contratos", "qt"] = -1 →
      extrairTransacoesDeTabelaAdv tf = [])
    ∧ (∀ tabela : List (List String), tabelaBovespa tabela = false →
        (colunasNotas ((tabela.headD []).map (fun col => stripStr (lowerStr col)))).ativo = -1
        ∨ (colunasNotas ((tabela.headD []).map
            (fun col => stripStr (lowerStr col)))).quantidade = -1 →
        extrairTransacoesTabela tabela = []) := by
  constructor
  · intro tf h
    simp only [extrairTransacoesDeTabelaAdv]
    rw [if_pos h]
  · intro tabela hb h
    simp only [extrairTransacoesTabela]
    split
    · rfl
    · rw [if_neg (by simp [hb]), List.nil_append, List.filterMap_eq_nil_iff]
      intro linha _
      exact processarLinhaNotas_sem_colunas _ linha h

theorem exige_colunas_minimas_witness :
    extrairTransacoesDeTabelaAdv ⟨["x"], [["C", "1"]], "x", true⟩ = [] :=
  exige_colunas_minimas.1 ⟨["x"], [["C", "1"]], "x", true⟩ (Or.inl (by decide))

/-- The concrete table of the C5 counterexample: its joined header
`"cv quant preco"` satisfies the first classification keyword set, the
asset column resolves to `-1`, a cell carries the `"bovespa"` marker, and
one row matches the special Bovespa line pattern. -/
def tabelaC5 : List (List String) :=
  [["cv", "quant", "preco"], ["bovespa"],
   ["C", "VISTA", "AB", "PN", "D", "2", "3,5", "7,0", "C"]]

/-- C5 (counterexample): a table that classifies as a transaction table and
whose asset column resolves to the `-1` sentinel still emits a transaction
in `extrair_transacoes_tabelas`, via the Bovespa regex branch. -/
theorem tabela_sem_coluna_ativo_emite :
    (colunasNotas ((tabelaC5.headD []).map (fun col => stripStr (lowerStr col)))).ativo = -1
    ∧ (processarTabelas [tabelaC5]).map TabelaFormatada.eTabelaTransacoes = [true]
    ∧ (extrair_transacoes_tabelas [tabelaC5]).length = 1
    ∧ (extrair_transacoes_tabelas [tabelaC5]).map Transacao.ativo = ["AB PN"] := by
  refine ⟨by decide, by decide, by decide, by decide⟩

/-- C6: a table is classified as a transaction table exactly when its
lowercased space-joined header contains every keyword of at least one
predefined keyword set, and a table whose flag is unset contributes no
transactions to the table stage. -/
theorem tabelas_classificadas (tbls : List (List (List String)))
    (tf : TabelaFormatada) (h : tf ∈ processarTabelas tbls) :
    (tf.eTabelaTransacoes = true ↔ ∃ ks ∈ KEYWORDS_TRANSACOES,
      ∀ kw ∈ ks, containsSub tf.cabecalhoStr kw = true)
    ∧ (tf.eTabelaTransacoes = false → ∀ pre post,
        transacoesDasTabelasAdv (pre ++ tf :: post) =
          transacoesDasTabelasAdv (pre ++ post)) := by
  constructor
  · rw [processarTabelas, List.mem_filterMap] at h
    obtain ⟨t, -, ht⟩ := h
    simp only [processarTabela?] at ht
    split at ht
    · cases ht
    · have heq := Option.some.inj ht
      rw [← heq]
      simp only [List.any_eq_true]
      constructor
      · rintro ⟨ks, hks, hall⟩
        exact ⟨ks, hks, fun kw hkw => List.all_eq_true.mp hall kw hkw⟩
      · rintro ⟨ks, hks, hall⟩
        exact ⟨ks, hks, List.all_eq_true.mpr (fun kw hkw => hall kw hkw)⟩
  · intro hfalse pre post
    rw [transacoesDasTabelasAdv, transacoesDasTabelasAdv,
      List.foldl_append, List.foldl_append, List.foldl_cons]
    have hstep : ∀ acc : List Transacao,
        (if tf.eTabelaTransacoes then acc ++ extrairTransacoesDeTabelaAdv tf else acc)
          = acc := by
      intro acc
      rw [if_neg (by simp [hfalse])]
    rw [hstep]

theorem tabelas_classificadas_witness :
    transacoesDasTabelasAdv ([] ++ ⟨["foo", "bar"], [["a", "b"]], "foo bar", false⟩ :: []) =
      transacoesDasTabelasAdv ([] ++ []) :=
  (tabelas_classificadas [[["foo", "bar"], ["a", "b"]]]
    ⟨["foo", "bar"], [["a", "b"]], "foo bar", false⟩ (by decide)).2 rfl [] []

lemma lookup_filterMap_none {α : Type} (l : List (String × α)) (F : α → Option ℚ)
    (nome : String) (hnm : nome ∉ l.map Prod.fst) :
    (l.filterMap (fun np => (F np.2).map (fun v => (np.1, v)))).lookup nome = none := by
  induction l with
  | nil => rfl
  | cons hd tl ih =>
    obtain ⟨n1, a1⟩ := hd
    have h1 : nome ≠ n1 := by
      intro h
      exact hnm (by rw [List.map_cons]; exact h ▸ List.mem_cons_self _ _)
    have h2 : nome ∉ tl.map Prod.fst := by
      intro h
      exact hnm (by rw [List.map_cons]; exact List.mem_cons_of_mem _ h)
    rw [List.filterMap_cons]
    cases hF : F a1 with
    | none => exact ih h2
    | some v =>
      have hbeq : (nome == n1) = false := by simpa using h1
      simp only [Option.map_some]
      simp only [List.lookup, hbeq]
      exact ih h2

lemma lookup_filterMap_keyed {α : Type} (l : List (String × α)) (F : α → Option ℚ)
    (nome : String) (v : α) (hmem : (nome, v) ∈ l)
    (hnd : (l.map Prod.fst).Nodup) :
    (l.filterMap (fun np => (F np.2).map (fun w => (np.1, w)))).lookup nome = F v := by
  induction l with
  | nil => cases hmem
  | cons hd tl ih =>
    obtain ⟨n1, a1⟩ := hd
    rw [List.map_cons, List.nodup_cons] at hnd
    rcases List.mem_cons.mp hmem with heq | htl
    · obtain ⟨rfl, rfl⟩ : nome = n1 ∧ v = a1 := by simpa [Prod.ext_iff] using heq
      rw [List.filterMap_cons]
      cases hF : F v with
      | none =>
        exact lookup_filterMap_none tl F nome hnd.1
      | some w =>
        show List.lookup nome ((nome, w) ::
          tl.filterMap (fun np => (F np.2).map (fun w => (np.1, w)))) = some w
        simp [List.lookup]
    · have hne : nome ≠ n1 := by
        intro hEq
        apply hnd.1
        rw [← hEq]
        exact List.mem_map.mpr ⟨(nome, v), htl, rfl⟩
      rw [List.filterMap_cons]
      cases hF : F a1 with
      | none => exact ih htl hnd.2
      | some w =>
        have hbeq : (nome == n1) = false := by simpa using hne
        simp only [Option.map_some]
        simp only [List.lookup, hbeq]
        exact ih htl hnd.2

lemma lookup_map_keyed {α : Type} (l : List (String × α)) (g : String × α → ℚ)
    (nome : String) (a : α) (hmem : (nome, a) ∈ l)
    (hnd : (l.map Prod.fst).Nodup) :
    (l.map (fun p => (p.1, g p))).lookup nome = some (g (nome, a)) := by
  induction l with
  | nil => cases hmem
  | cons hd tl ih =>
    obtain ⟨n1, a1⟩ := hd
    rw [List.map_cons, List.nodup_cons] at hnd
    rw [List.map_cons]
    rcases List.mem_cons.mp hmem with heq | htl
    · obtain ⟨rfl, rfl⟩ : nome = n1 ∧ a = a1 := by simpa [Prod.ext_iff] using heq
      simp [List.lookup]
    · have hne : nome ≠ n1 := by
        intro hEq
        apply hnd.1
        rw [← hEq]
        exact List.mem_map.mpr ⟨(nome, a), htl, rfl⟩
      have hbeq : (nome == n1) = false := by simpa using hne
      simp only [List.lookup, hbeq]
      exact ih htl hnd.2

lemma primeiraTaxa_append_skip (rs1 rs2 : List (Option String))
    (h : ∀ s, some s ∈ rs1 → parseTaxaStr s = none) :
    primeiraTaxa (rs1 ++ rs2) = primeiraTaxa rs2 := by
  induction rs1 with
  | nil => rfl
  | cons r resto ih =>
    cases r with
    | none =>
      rw [List.cons_append, primeiraTaxa]
      exact ih (fun s hs => h s (List.mem_cons_of_mem _ hs))
    | some s0 =>
      rw [List.cons_append, primeiraTaxa, h s0 (List.mem_cons_self _ _)]
      exact ih (fun s hs => h s (List.mem_cons_of_mem _ hs))

lemma primeiraTaxa_eq_none_iff (rs : List (Option String)) :
    primeiraTaxa rs = none ↔ ∀ s, some s ∈ rs → parseTaxaStr s = none := by
  induction rs with
  | nil => simp [primeiraTaxa]
  | cons r resto ih =>
    cases r with
    | none =>
      rw [primeiraTaxa, ih]
      constructor
      · intro h s hs
        rcases List.mem_cons.mp hs with heq | htl
        · cases heq
        · exact h s htl
      · intro h s hs
        exact h s (List.mem_cons_of_mem _ hs)
    | some s0 =>
      rw [primeiraTaxa]
      cases hp : parseTaxaStr s0 with
      | some v =>
        constructor
        · intro h; cases h
        · intro h
          exact absurd (h s0 (by simp)) (by simp [hp])
      | none =>
        rw [ih]
        constructor
        · intro h s hs
          rcases List.mem_cons.mp hs with heq | htl
          · rw [Option.some.inj heq]
            exact hp
          · exact h s htl
        · intro h s hs
          exact h s (List.mem_cons_of_mem _ hs)

lemma primeiraTaxa_some (rs : List (Option String)) (v : ℚ)
    (h : primeiraTaxa rs = some v) :
    ∃ s, some s ∈ rs ∧ parseTaxaStr s = some v := by
  induction rs with
  | nil => cases h
  | cons r resto ih =>
    cases r with
    | none =>
      rw [primeiraTaxa] at h
      obtain ⟨s, hs, hp⟩ := ih h
      exact ⟨s, List.mem_cons_of_mem _ hs, hp⟩
    | some s0 =>
      rw [primeiraTaxa] at h
      cases hp : parseTaxaStr s0 with
      | some w =>
        rw [hp] at h
        exact ⟨s0, by simp, by rw [hp, Option.some.inj h]⟩
      | none =>
        rw [hp] at h
        obtain ⟨s, hs, hps⟩ := ih h
        exact ⟨s, List.mem_cons_of_mem _ hs, hps⟩

/-- C9 (counterexample): for a document whose text matches no fee pattern
(the search oracle returns `none` for every pattern, e.g. on empty text),
`pdf_analyzer._extrair_taxas` still emits every fee name, set to zero —
fee names are not absent and zero is used as the missing-value encoding. -/
theorem taxas_pdf_preenche_zero :
    (extrairTaxasPdf (fun _ => none)).lookup "corretagem" = some 0
    ∧ (extrairTaxasPdf (fun _ => none)).lookup "valor_liquido" = some 0
    ∧ (extrairTaxasPdf (fun _ => none)).length = 12 := by decide

/-- C9 (amended): in `extrator_notas.extrair_taxas` a fee name is absent
from the mapping exactly when no pattern's captured amount parses (a match
whose capture fails to parse is skipped and later patterns are tried), and a
present fee carries the amount of the first pattern whose captured amount
parses — every earlier pattern either not matching or failing to parse, and
later patterns ignored; in `pdf_analyzer._extrair_taxas` every fee name is
always present, its value the parsed capture of its single pattern with `0`
as the fallback for a missing match or an unparseable capture. -/
theorem taxas_primeiro_padrao (search : String → Option String) (nome : String)
    (padroes : List String) (hmem : (nome, padroes) ∈ PADROES_TAXAS_NOTAS) :
    ((extrairTaxasNotas search).lookup nome = none ↔
      ∀ p ∈ padroes, ∀ s, search p = some s → parseTaxaStr s = none)
    ∧ (∀ pre p suf, padroes = pre ++ p :: suf →
        (∀ q ∈ pre, ∀ s, search q = some s → parseTaxaStr s = none) →
        ∀ s v, search p = some s → parseTaxaStr s = some v →
          (extrairTaxasNotas search).lookup nome = some v)
    ∧ (∀ v, (extrairTaxasNotas search).lookup nome = some v →
        ∃ p ∈ padroes, ∃ s, search p = some s ∧ parseTaxaStr s = some v)
    ∧ (∀ nome2 pat, (nome2, pat) ∈ PADROES_TAXAS_PDF →
        (extrairTaxasPdf search).lookup nome2 =
          some (match search pat with
            | some s => (parseTaxaStr s).getD 0
            | none => 0)) := by
  have hlk : (extrairTaxasNotas search).lookup nome =
      primeiraTaxa (padroes.map search) := by
    rw [extrairTaxasNotas]
    exact lookup_filterMap_keyed PADROES_TAXAS_NOTAS
      (fun ps => primeiraTaxa (ps.map search)) nome padroes hmem (by decide)
  refine ⟨?_, ?_, ?_, ?_⟩
  · rw [hlk, primeiraTaxa_eq_none_iff]
    constructor
    · intro h p hp s hs
      exact h s (List.mem_map.mpr ⟨p, hp, hs⟩)
    · intro h s hs
      obtain ⟨p, hp, hps⟩ := List.mem_map.mp hs
      exact h p hp s hps
  · rintro pre p suf rfl hpre s v hs hv
    have hskip : ∀ t, some t ∈ pre.map search → parseTaxaStr t = none := by
      intro t ht
      obtain ⟨q, hq, hqs⟩ := List.mem_map.mp ht
      exact hpre q hq t hqs
    rw [hlk, List.map_append, List.map_cons,
      primeiraTaxa_append_skip _ _ hskip, hs, primeiraTaxa, hv]
  · intro v hv
    rw [hlk] at hv
    obtain ⟨s, hs, hps⟩ := primeiraTaxa_some _ v hv
    obtain ⟨p, hp, hps2⟩ := List.mem_map.mp hs
    exact ⟨p, hp, s, hps2, hps⟩
  · intro nome2 pat hmem2
    rw [extrairTaxasPdf]
    exact lookup_map_keyed PADROES_TAXAS_PDF
      (fun np => match search np.2 with
        | some s => (parseTaxaStr s).getD 0
        | none => 0) nome2 pat hmem2 (by decide)

theorem taxas_primeiro_padrao_witness :
    (extrairTaxasNotas (fun p =>
        if p = "taxa\\s+de\\s+liquida[cç][aã]o\\s*:?\\s*(?:R\\$)?\\s*([\\d\\.,]+)"
        then some "abc"
        else if p = "liquida[cç][aã]o\\s*:?\\s*(?:R\\$)?\\s*([\\d\\.,]+)"
        then some "1,5"
        else none)).lookup "taxa_liquidacao" = some (mkRat 15 10)
    ∧ (extrairTaxasPdf (fun _ => none)).lookup "iss" = some 0 := by
  constructor
  · refine (taxas_primeiro_padrao _ "taxa_liquidacao"
      ["taxa\\s+de\\s+liquida[cç][aã]o\\s*:?\\s*(?:R\\$)?\\s*([\\d\\.,]+)",
       "liquida[cç][aã]o\\s*:?\\s*(?:R\\$)?\\s*([\\d\\.,]+)"] (by decide)).2.1
      ["taxa\\s+de\\s+liquida[cç][aã]o\\s*:?\\s*(?:R\\$)?\\s*([\\d\\.,]+)"]
      "liquida[cç][aã]o\\s*:?\\s*(?:R\\$)?\\s*([\\d\\.,]+)" [] rfl ?_
      "1,5" (mkRat 15 10) (by decide) (by decide)
    intro q hq s hs
    rw [List.mem_singleton] at hq
    subst hq
    have hs' : (some "abc" : Option String) = some s := by rw [← hs]; decide
    obtain rfl : s = "abc" := (Option.some.inj hs').symm
    decide
  · exact (taxas_primeiro_padrao (fun _ => none) "iss"
      ["(?:imposto|i\\.?s\\.?s\\.?)\\s*:?\\s*(?:R\\$)?\\s*([\\d\\.,]+)"]
      (by decide)).2.2.2 "iss" "ISS:?\\s*([\\d,.]+)" (by decide)

end Correpy
